import Mathlib

/-!
Verification of the data-stream-etl sync core against its specification.

The definitions below are a shallow embedding of the Python sources:

* `src/extractors/strava.py` — paginated fetch (`get_activity_ids`),
  per-record detail fetch (`get_activity_data`), the rate/auth error policy
  (`api_error_handler`) and the orchestrating `strava_extractor`.
* `src/main.py` / `src/airflow/dags/etl_dag.py` /
  `src/loaders/strava_loader.py` — the stage ordering
  extract → transform → load of one strava sync run (`strava_pipeline`),
  the load stage performing the merge-upsert.
* `src/utility/cache_data.py` — Redis-backed identifier cache
  (`get_cached_ids`).
* `src/utility/database_handler.py` — merge-upsert persistence
  (`DatabaseHandler.insert_data` / `generate_insert_query`).
* `src/validation/post_load_checks.py` — post-load validator
  (`compare_random_rows`, `post_load_checks`).
* `src/extractors/youtube.py` — bounded pagination
  (`YouTubeExtractor._api_call`).

External effects (HTTP responses, Redis reads, MySQL row results, the
random sample drawn by pandas) are passed in explicitly as data, so every
definition is executable and every run of a modelled function corresponds
to one run of the Python code against a fixed environment.
-/

namespace ETL

/-- Outcome of `refresh_access_token` (src/extractors/strava.py:28-82):
on HTTP success the new access token is returned, otherwise the function
raises, which we model as an error value that the caller propagates. -/
inductive RefreshOutcome where
  | success (token : String)
  | failure (msg : String)
deriving DecidableEq, Repr

/-- Model of `api_error_handler` (src/extractors/strava.py:99-163).
Status 429 sleeps and returns `True`; status 401 refreshes the token and
returns `True` (a failed refresh raises, propagated as `.error`);
status 404, 500 and any other status in [400, 600) raise `HTTPError`
(modelled as `.error` carrying the logged message); any remaining status
falls through and returns `False`. -/
def api_error_handler (refresh : RefreshOutcome) (status : Nat)
    (activity_id : Option String) : Except String Bool :=
  if status = 429 then .ok true
  else if status = 401 then
    match refresh with
    | .success _ => .ok true
    | .failure m => .error m
  else if status = 404 then
    .error ("Activity " ++ activity_id.getD "None" ++ " not found")
  else if status = 500 then
    .error ("Server error occurred when fetching activity " ++
      activity_id.getD "None")
  else if 400 ≤ status ∧ status < 600 then
    .error "HTTP error occurred"
  else .ok false

/-- One scripted HTTP response for the paginated activity-list endpoint:
the status code and, for 200 responses, the JSON array of activities,
each carrying its numeric `id` field. -/
structure PageResponse where
  status : Nat
  activities : List Nat
deriving DecidableEq, Repr

/-- Result of `get_activity_ids`: either the fetched identifier set, an
exception propagated from `api_error_handler`, or exhaustion of the
scripted response sequence (the Python loop would issue yet another
request, so a finite script that ends mid-run has no defined value). -/
inductive FetchIdsResult where
  | ok (ids : Finset String)
  | err (msg : String)
  | outOfResponses
deriving DecidableEq

/-- Model of the `while True` loop of `get_activity_ids`
(src/extractors/strava.py:182-204), one scripted response consumed per
iteration. Returns the list of page numbers requested, in order, together
with the result. On a non-200 response the error handler runs and the
loop continues with the *same* page number (`continue` after
`api_error_handler`, line 192-193); `page` is incremented only after a
non-empty 200 page has been folded into the accumulator (line 204); an
empty 200 page terminates the loop. Each activity id is stringified,
mirroring `str(activity["id"])` (line 200). -/
def get_activity_ids_loop (refresh : RefreshOutcome) :
    List PageResponse → Nat → Finset String → List Nat × FetchIdsResult
  | [], _, _ => ([], .outOfResponses)
  | r :: rest, page, acc =>
    if r.status ≠ 200 then
      match api_error_handler refresh r.status Option.none with
      | .error m => ([page], .err m)
      | .ok _ =>
          let p := get_activity_ids_loop refresh rest page acc
          (page :: p.1, p.2)
    else if r.activities.isEmpty then ([page], .ok acc)
    else
      let p := get_activity_ids_loop refresh rest (page + 1)
        (acc ∪ (r.activities.map toString).toFinset)
      (page :: p.1, p.2)

/-- Model of `get_activity_ids` (src/extractors/strava.py:166-208):
starts at page 1 with an empty accumulator. -/
def get_activity_ids (refresh : RefreshOutcome)
    (responses : List PageResponse) : List Nat × FetchIdsResult :=
  get_activity_ids_loop refresh responses 1 ∅

/-- One scripted HTTP response for the per-activity detail endpoint:
status code and, for 200 responses, the JSON payload of the activity. -/
structure DetailResponse where
  status : Nat
  payload : String
deriving DecidableEq, Repr

/-- Result of `get_activity_data`: the fetched payloads in order, an
exception (which aborts the whole run, src/extractors/strava.py:249-252),
or exhaustion of the scripted response sequence. -/
inductive DetailResult where
  | ok (data : List String)
  | err (msg : String)
  | outOfResponses
deriving DecidableEq, Repr

/-- Model of the nested loops of `get_activity_data`
(src/extractors/strava.py:229-252), one scripted response consumed per
request. A 200 response appends the payload and moves to the next
activity id; otherwise `api_error_handler` runs: if it raises, the
exception is caught by the surrounding `except` block and re-raised as
`Exception("Error fetching activity data: ...")`, aborting the whole
run; if it returns, the loop retries the *same* activity id. -/
def get_activity_data_loop (refresh : RefreshOutcome) :
    List DetailResponse → List String → List String → DetailResult
  | _, [], acc => .ok acc.reverse
  | [], _ :: _, _ => .outOfResponses
  | r :: rest, aid :: ids, acc =>
    if r.status = 200 then
      get_activity_data_loop refresh rest ids (r.payload :: acc)
    else
      match api_error_handler refresh r.status (some aid) with
      | .error m => .err ("Error fetching activity data: " ++ m)
      | .ok _ => get_activity_data_loop refresh rest (aid :: ids) acc

/-- Model of `get_activity_data` (src/extractors/strava.py:211-256). -/
def get_activity_data (refresh : RefreshOutcome)
    (responses : List DetailResponse) (new_ids : List String) :
    DetailResult :=
  get_activity_data_loop refresh responses new_ids []

/-- Model of `get_cached_ids` (src/utility/cache_data.py:23-43). The
Redis `smembers` call either yields the stored members or raises; any
exception is caught, logged, and replaced by the empty set. -/
def get_cached_ids (smembers : Except String (List String)) :
    Finset String :=
  match smembers with
  | .ok items => items.toFinset
  | .error _ => ∅

/-- Model of the change-set computation
`new_activity_ids = all_activity_ids - cached_ids`
(src/extractors/strava.py:273): plain set difference. -/
def new_activity_ids (all_activity_ids cached_ids : Finset String) :
    Finset String :=
  all_activity_ids \ cached_ids

variable {α : Type} {κ : Type} [DecidableEq α] [DecidableEq κ]

/-- One execution of the generated upsert statement against a table:
insert the row if its key is absent (affected rows 1), replace the first
row carrying the same key if the values differ (affected rows 2), leave
the table unchanged if that row already equals the incoming one
(affected rows 0). -/
def upsert_row (pk : α → κ) : List α → α → List α × Nat
  | [], row => ([row], 1)
  | r :: rest, row =>
    if pk r = pk row then
      if r = row then (r :: rest, 0) else (row :: rest, 2)
    else
      let p := upsert_row pk rest row
      (r :: p.1, p.2)

/-- One iteration of the row loop of `insert_data`
(src/utility/database_handler.py:190-209): a raising execution
(`fails row = true`, e.g. a constraint violation) is logged and rolled
back, leaving table and counters unchanged, and the loop continues;
otherwise the upsert executes and `rowcount` 1 increments the added
counter, `rowcount` 2 the updated counter. -/
def insert_step (pk : α → κ) (fails : α → Bool)
    (s : List α × Nat × Nat) (row : α) : List α × Nat × Nat :=
  if fails row then s
  else
    let p := upsert_row pk s.1 row
    (p.1,
      (if p.2 = 1 then s.2.1 + 1 else s.2.1),
      (if p.2 = 2 then s.2.2 + 1 else s.2.2))

/-- Model of `DatabaseHandler.insert_data`
(src/utility/database_handler.py:163-218): fold the row loop over the
batch, starting from the current table contents with both counters at
zero. Returns the final table together with the (added, updated) counts
that line 212 logs. -/
def insert_data (pk : α → κ) (fails : α → Bool) (table : List α)
    (batch : List α) : List α × Nat × Nat :=
  batch.foldl (insert_step pk fails) (table, 0, 0)

/-- First row of the table carrying the given key, mirroring which row a
key conflict resolves to. -/
def find_by_key (pk : α → κ) : List α → κ → Option α
  | [], _ => Option.none
  | r :: rest, k => if pk r = k then some r else find_by_key pk rest k

/-!
Post-load validator, src/validation/post_load_checks.py.

Cell values reaching `compare_random_rows` are Python scalars: strings,
ints, finite floats (a finite float is identified by its shortest decimal
representation `m / 10 ^ e`, which is what `str` produces and
`Decimal(str(x))` parses), `decimal.Decimal` values from MySQL
(`m / 10 ^ e` exactly), `float("nan")`, and `None`. `Decimal("NaN")`
(only producible by normalising a staged NaN against a Decimal column)
is not modelled.
-/

/-- Python scalar values as seen by the validator. -/
inductive PyVal where
  | pyNone
  | nan
  | float (m : Int) (e : Nat)
  | decimal (m : Int) (e : Nat)
  | int (n : Int)
  | str (s : String)
deriving DecidableEq, Repr

/-- Model of `pd.isna` on the scalars above: `None` and `float("nan")`
are missing, everything else is not. -/
def isna : PyVal → Bool
  | .pyNone => true
  | .nan => true
  | _ => false

/-- Python type of a scalar, as reported by `type(...).__name__` in the
mismatch log; `float("nan")` is a `float`. -/
def py_type : PyVal → String
  | .pyNone => "NoneType"
  | .nan => "float"
  | .float _ _ => "float"
  | .decimal _ _ => "Decimal"
  | .int _ => "int"
  | .str _ => "str"

/-- Numeric view of a scalar as a scaled integer `m / 10 ^ e`. -/
def num_val : PyVal → Option (Int × Nat)
  | .float m e => some (m, e)
  | .decimal m e => some (m, e)
  | .int n => some (n, 0)
  | _ => Option.none

/-- Model of Python `==` on the scalars above: numeric values compare by
value, strings by content, `None` only equals `None`, and NaN equals
nothing (the code never reaches `==` with two missing values because of
the `pd.isna` guard). -/
def py_eq (a b : PyVal) : Bool :=
  match num_val a, num_val b with
  | some (m1, e1), some (m2, e2) => m1 * 10 ^ e2 = m2 * 10 ^ e1
  | _, _ =>
    match a, b with
    | .str s, .str t => s = t
    | .pyNone, .pyNone => true
    | _, _ => false

/-- Model of the float-vs-Decimal normalisation
(src/validation/post_load_checks.py:95-96): a staged `float` compared
against a persisted `Decimal` is first replaced by
`Decimal(str(pre_load_value))`, i.e. the Decimal spelled exactly like
the decimal representation of the float. All other pairs are untouched. -/
def normalise_pre (pre db : PyVal) : PyVal :=
  match pre, db with
  | .float m e, .decimal _ _ => .decimal m e
  | _, _ => pre

/-- Model of one field comparison
(src/validation/post_load_checks.py:94-104): normalise, treat two
missing values as equal, then require value equality and identical
reported types. -/
def field_ok (pre db : PyVal) : Bool :=
  let pre := normalise_pre pre db
  if isna pre && isna db then true
  else if !py_eq pre db || py_type pre ≠ py_type db then false
  else true

/-- One recorded validation mismatch: the sampled key it was found under
and the offending field name. -/
structure Mismatch where
  key : String
  field : String
deriving DecidableEq, Repr

/-- Model of the inner field loop of `compare_random_rows`
(src/validation/post_load_checks.py:90-104) for one sampled key: the
fields in column order, each with its staged and persisted value; the
first failing field is reported. -/
def compare_fields (key : String) :
    List (String × PyVal × PyVal) → Option Mismatch
  | [] => Option.none
  | (f, pre, db) :: rest =>
    if field_ok pre db then compare_fields key rest
    else some ⟨key, f⟩

/-- Model of the key loop of `compare_random_rows`
(src/validation/post_load_checks.py:81-108): each sampled key carries
the per-field staged/persisted pairs; on the first mismatching field the
function logs that single mismatch and returns `False` for the whole
table, otherwise it returns `True` with nothing logged. -/
def compare_random_rows :
    List (String × List (String × PyVal × PyVal)) → Bool × List Mismatch
  | [] => (true, [])
  | (k, fields) :: rest =>
    match compare_fields k fields with
    | some m => (false, [m])
    | Option.none => compare_random_rows rest

/-- Model of the primary-key determination of `post_load_checks`
(src/validation/post_load_checks.py:123): the pair `(date, hour)` when
the database frame has both columns, otherwise its first column. -/
def primary_key (db_columns : List String) : List String :=
  if "date" ∈ db_columns ∧ "hour" ∈ db_columns then ["date", "hour"]
  else [db_columns.headD ""]

/-- Model of the sample-size computation
(src/validation/post_load_checks.py:71). -/
def sample_size (num_rows : Nat) : Nat :=
  if num_rows < 10 then num_rows else 10

/-- Model of the sampling step (src/validation/post_load_checks.py:74-79):
when the table has more than 10 rows the keys iterated over are the
random sample drawn by pandas (passed in here as `random_sample`),
otherwise they are the full list of distinct keys. -/
def sampled_or_all_keys {κ : Type} (unique_keys : List κ)
    (num_rows : Nat) (random_sample : List κ) : List κ :=
  if 10 < num_rows then random_sample else unique_keys

/-- Model of the row-matching predicate built from the query condition
(src/validation/post_load_checks.py:83): a row matches a sampled key
record exactly when every primary-key column agrees, joined with `&`. -/
def row_matches_key (pks : List String) (key_row row : String → String) :
    Bool :=
  pks.all (fun pk => row pk = key_row pk)

/-!
Bounded pagination, src/extractors/youtube.py.
-/

/-- One response of the YouTube Data API: the returned items and the
optional `nextPageToken`. -/
structure YTResponse where
  items : List String
  nextPageToken : Option String

/-- Items of `count` consecutive pages starting at page `start`. -/
def pages_items (resp : Nat → YTResponse) (start count : Nat) :
    List String :=
  match count with
  | 0 => []
  | c + 1 => (resp start).items ++ pages_items resp (start + 1) c

/-- Model of the `for page in range(self.max_pages)` loop of
`YouTubeExtractor._api_call` (src/extractors/youtube.py:98-116), with
the response to the request issued on iteration `page` scripted as
`resp page`. Returns the accumulated items together with the number of
requests issued: the loop breaks after a response without
`nextPageToken`, and otherwise stops when the range is exhausted. -/
def api_call_go (resp : Nat → YTResponse) :
    Nat → Nat → List String → List String × Nat
  | 0, page, acc => (acc, page)
  | fuel + 1, page, acc =>
    let r := resp page
    match r.nextPageToken with
    | Option.none => (acc ++ r.items, page + 1)
    | some _ => api_call_go resp fuel (page + 1) (acc ++ r.items)

/-- Model of `YouTubeExtractor._api_call` (src/extractors/youtube.py:84-116). -/
def api_call (resp : Nat → YTResponse) (max_pages : Nat) :
    List String × Nat :=
  api_call_go resp max_pages 0 []

/-- Default page bound of `YouTubeExtractor.__init__`
(src/extractors/youtube.py:31-44). -/
def default_max_pages : Nat := 200

/-!
Helper lemmas shared by the claim theorems.
-/

theorem foldl_insert_step_filter (pk : α → κ) (fails : α → Bool)
    (batch : List α) (s : List α × Nat × Nat) :
    batch.foldl (insert_step pk fails) s =
      (batch.filter (fun r => !fails r)).foldl
        (insert_step pk (fun _ => false)) s := by
  induction batch generalizing s with
  | nil => rfl
  | cons r rest ih =>
    by_cases h : fails r = true
    · simp only [List.foldl_cons, List.filter_cons, h, Bool.not_true,
        insert_step, if_pos h]
      exact ih s
    · have h' : fails r = false := by simpa using h
      simp only [List.foldl_cons, List.filter_cons, h', Bool.not_false,
        if_true]
      rw [show insert_step pk fails s r =
          insert_step pk (fun _ => false) s r by
        simp [insert_step, h']]
      exact ih _

theorem upsert_row_of_find_self (pk : α → κ) (t : List α) (row : α)
    (h : find_by_key pk t (pk row) = some row) :
    upsert_row pk t row = (t, 0) := by
  induction t with
  | nil => simp [find_by_key] at h
  | cons r rest ih =>
    by_cases hk : pk r = pk row
    · have hr : r = row := by simpa [find_by_key, hk] using h
      subst hr
      simp [upsert_row, hk]
    · have h' : find_by_key pk rest (pk row) = some row := by
        simpa [find_by_key, hk] using h
      simp [upsert_row, hk, ih h']

theorem find_upsert_row_self (pk : α → κ) (t : List α) (row : α) :
    find_by_key pk (upsert_row pk t row).1 (pk row) = some row := by
  induction t with
  | nil => simp [upsert_row, find_by_key]
  | cons r rest ih =>
    by_cases hk : pk r = pk row
    · by_cases hr : r = row
      · subst hr
        simp [upsert_row, hk, find_by_key]
      · simp [upsert_row, hk, hr, find_by_key]
    · simp [upsert_row, hk, find_by_key, ih]

theorem find_upsert_row_other (pk : α → κ) (t : List α) (row : α)
    (k : κ) (hk : k ≠ pk row) :
    find_by_key pk (upsert_row pk t row).1 k = find_by_key pk t k := by
  have hrowk : pk row ≠ k := Ne.symm hk
  induction t with
  | nil => simp [upsert_row, find_by_key, hrowk]
  | cons r rest ih =>
    by_cases hr : pk r = pk row
    · by_cases hrr : r = row
      · subst hrr
        simp [upsert_row, hr]
      · have hrk : pk r ≠ k := by rw [hr]; exact hrowk
        simp [upsert_row, hr, hrr, find_by_key, hrowk, hrk]
    · simp [upsert_row, hr, find_by_key, ih]

theorem find_foldl_insert_step_other (pk : α → κ) (fails : α → Bool)
    (batch : List α) (s : List α × Nat × Nat) (k : κ)
    (h : ∀ r ∈ batch, pk r ≠ k) :
    find_by_key pk (batch.foldl (insert_step pk fails) s).1 k =
      find_by_key pk s.1 k := by
  induction batch generalizing s with
  | nil => rfl
  | cons r rest ih =>
    rw [List.foldl_cons,
      ih _ (fun r' hr' => h r' (List.mem_cons_of_mem _ hr'))]
    by_cases hf : fails r = true
    · simp [insert_step, hf]
    · have hf' : fails r = false := by simpa using hf
      have hk : k ≠ pk r := fun hkk =>
        h r (List.mem_cons_self _ _) hkk.symm
      simp [insert_step, hf', find_upsert_row_other pk _ _ _ hk]

theorem find_foldl_insert_step_mem (pk : α → κ) (row : α) :
    ∀ (batch : List α) (s : List α × Nat × Nat),
      (batch.map pk).Nodup → row ∈ batch →
      find_by_key pk
        (batch.foldl (insert_step pk (fun _ => false)) s).1 (pk row) =
        some row := by
  intro batch
  induction batch with
  | nil => intro s _ hrow; cases hrow
  | cons r rest ih =>
    intro s hnd hrow
    rw [List.map_cons, List.nodup_cons] at hnd
    rcases List.mem_cons.mp hrow with hr | hr
    · subst hr
      rw [List.foldl_cons]
      rw [find_foldl_insert_step_other pk _ rest _ (pk row)
        (fun r' hr' heq => hnd.1 (heq ▸ List.mem_map_of_mem pk hr'))]
      simp [insert_step, find_upsert_row_self]
    · exact ih _ hnd.2 hr

theorem foldl_insert_step_fixed (pk : α → κ) (batch : List α)
    (t : List α) (a u : Nat)
    (h : ∀ row ∈ batch, find_by_key pk t (pk row) = some row) :
    batch.foldl (insert_step pk (fun _ => false)) (t, a, u) =
      (t, a, u) := by
  induction batch with
  | nil => rfl
  | cons r rest ih =>
    rw [List.foldl_cons]
    have hstep : insert_step pk (fun _ => false) (t, a, u) r =
        (t, a, u) := by
      simp [insert_step,
        upsert_row_of_find_self pk t r (h r (List.mem_cons_self _ _))]
    rw [hstep]
    exact ih (fun row hrow => h row (List.mem_cons_of_mem _ hrow))

theorem api_call_go_count_le (resp : Nat → YTResponse) (fuel : Nat) :
    ∀ (page : Nat) (acc : List String),
      (api_call_go resp fuel page acc).2 ≤ page + fuel := by
  induction fuel with
  | zero => intro page acc; simp [api_call_go]
  | succ f ih =>
    intro page acc
    rw [api_call_go]
    cases htok : (resp page).nextPageToken with
    | none => exact (by omega : page + 1 ≤ page + (f + 1))
    | some t =>
      simp only []
      calc (api_call_go resp f (page + 1)
              (acc ++ (resp page).items)).2 ≤ page + 1 + f := ih _ _
        _ = page + (f + 1) := by omega

theorem api_call_go_all_tokens (resp : Nat → YTResponse)
    (h : ∀ p, ((resp p).nextPageToken).isSome) (fuel : Nat) :
    ∀ (page : Nat) (acc : List String),
      api_call_go resp fuel page acc =
        (acc ++ pages_items resp page fuel, page + fuel) := by
  induction fuel with
  | zero => intro page acc; simp [api_call_go, pages_items]
  | succ f ih =>
    intro page acc
    rw [api_call_go]
    cases htok : (resp page).nextPageToken with
    | none => exact absurd (h page) (by simp [htok])
    | some t =>
      simp only []
      rw [ih (page + 1) (acc ++ (resp page).items)]
      rw [Prod.mk.injEq]
      refine ⟨?_, by omega⟩
      rw [show pages_items resp page (f + 1) =
        (resp page).items ++ pages_items resp (page + 1) f from rfl]
      rw [List.append_assoc]

theorem api_call_go_stops (resp : Nat → YTResponse) (k : Nat) :
    ∀ (fuel page : Nat) (acc : List String), k < fuel →
      (∀ j, j < k → ((resp (page + j)).nextPageToken).isSome) →
      (resp (page + k)).nextPageToken = Option.none →
      api_call_go resp fuel page acc =
        (acc ++ pages_items resp page (k + 1), page + k + 1) := by
  induction k with
  | zero =>
    intro fuel page acc hfuel htok hnone
    cases fuel with
    | zero => omega
    | succ f =>
      rw [api_call_go]
      rw [show page + 0 = page from rfl] at hnone
      rw [hnone]
      simp [pages_items]
  | succ k ih =>
    intro fuel page acc hfuel htok hnone
    cases fuel with
    | zero => omega
    | succ f =>
      have h0 : ((resp page).nextPageToken).isSome := by
        simpa using htok 0 (Nat.succ_pos k)
      rw [api_call_go]
      cases htok0 : (resp page).nextPageToken with
      | none => rw [htok0] at h0; simp at h0
      | some t =>
        simp only []
        rw [ih f (page + 1) (acc ++ (resp page).items)
          (by omega)
          (fun j hj => by
            have := htok (j + 1) (by omega)
            rwa [show page + (j + 1) = page + 1 + j by omega] at this)
          (by rwa [show page + 1 + k = page + (k + 1) by omega])]
        rw [Prod.mk.injEq]
        refine ⟨?_, by omega⟩
        rw [show pages_items resp page (k + 1 + 1) =
          (resp page).items ++ pages_items resp (page + 1) (k + 1) from rfl]
        rw [List.append_assoc]

/-!
Claim theorems.
-/

/-- C2: for every pair of identifier sets A (fetched) and B (cached),
the change-set computation of src/extractors/strava.py:273 returns
exactly the set difference A − B; in particular it is empty when the
cache already holds everything and the whole fetch when the cache is
empty, so only identifiers absent from the cache incur a detail fetch. -/
theorem change_set_resolver_is_set_difference (A B : Finset String) :
    new_activity_ids A B = A \ B ∧
    (∀ x, x ∈ new_activity_ids A B ↔ x ∈ A ∧ x ∉ B) ∧
    new_activity_ids A A = ∅ ∧
    new_activity_ids A ∅ = A := by
  refine ⟨rfl, fun x => ?_, ?_, ?_⟩ <;> simp [new_activity_ids]

/-- C9: if the Redis read inside get_cached_ids raises, the error is
swallowed and the empty set is returned, which is exactly what an unseen
source returns, so the change-set at the call site treats every fetched
identifier as new. -/
theorem cache_read_failure_yields_empty_set (e : String)
    (fetched : Finset String) :
    get_cached_ids (.error e) = ∅ ∧
    get_cached_ids (.error e) = get_cached_ids (.ok []) ∧
    new_activity_ids fetched (get_cached_ids (.error e)) = fetched := by
  refine ⟨rfl, rfl, ?_⟩
  simp [get_cached_ids, new_activity_ids]

/-- C5: a batch run of insert_data with some rows raising (a constraint
violation, modelled by the fails oracle) equals the run that processes
only the non-raising rows: the failing row changes neither the table nor
the counters (its statement is rolled back) and the loop continues with
the remaining records, so one bad record never aborts the batch. -/
theorem persistence_failure_does_not_abort_batch (pk : α → κ)
    (fails : α → Bool) (table batch : List α) :
    insert_data pk fails table batch =
      insert_data pk (fun _ => false) table
        (batch.filter (fun r => !fails r)) :=
  foldl_insert_step_filter pk fails batch (table, 0, 0)

/-- C6 counterexample: with activity ids [a, b] and a not-found response
for a, get_activity_data does not skip a and continue with b — the
HTTPError raised by api_error_handler is re-raised and the whole run
aborts, so the result is an error rather than the batch containing the
payload of b. -/
theorem not_found_aborts_run_counterexample :
    get_activity_data (.success "tok")
        [⟨404, ""⟩, ⟨200, "payload-b"⟩] ["a", "b"] =
      .err "Error fetching activity data: Activity a not found" ∧
    get_activity_data (.success "tok")
        [⟨404, ""⟩, ⟨200, "payload-b"⟩] ["a", "b"] ≠
      .ok ["payload-b"] := by
  exact ⟨rfl, by decide⟩

/-- C6 (amended): when a detail fetch for a single record returns a
not-found status, api_error_handler raises an HTTPError which
get_activity_data re-raises as a run-level exception: the item is not
skipped, no further identifiers are fetched, and the whole run aborts
with the not-found message for that identifier. -/
theorem not_found_aborts_run (refresh : RefreshOutcome) (p : String)
    (rest : List DetailResponse) (aid : String) (ids acc : List String) :
    get_activity_data_loop refresh (⟨404, p⟩ :: rest) (aid :: ids) acc =
      .err ("Error fetching activity data: " ++
        ("Activity " ++ aid ++ " not found")) := by
  simp [get_activity_data_loop, api_error_handler]

/-- C10: for every scripted response sequence and page bound,
YouTubeExtractor._api_call issues at most max_pages requests (the
default bound being 200); when every response carries a nextPageToken it
still stops after exactly max_pages requests with the items of those
pages, and when page k is the first without a token it returns after
k + 1 requests with the items of pages 0..k — so pagination terminates
even if the upstream always supplies a next-page token. -/
theorem api_call_bounded_and_terminates (resp : Nat → YTResponse)
    (max_pages : Nat) :
    (api_call resp max_pages).2 ≤ max_pages ∧
    default_max_pages = 200 ∧
    ((∀ p, ((resp p).nextPageToken).isSome) →
      api_call resp max_pages =
        (pages_items resp 0 max_pages, max_pages)) ∧
    (∀ k, k < max_pages →
      (∀ j, j < k → ((resp j).nextPageToken).isSome) →
      (resp k).nextPageToken = Option.none →
      api_call resp max_pages = (pages_items resp 0 (k + 1), k + 1)) := by
  refine ⟨?_, rfl, ?_, ?_⟩
  · simpa using api_call_go_count_le resp max_pages 0 []
  · intro h
    simpa using api_call_go_all_tokens resp h max_pages 0 []
  · intro k hk htok hnone
    simpa using api_call_go_stops resp k max_pages 0 [] hk
      (by simpa using htok) (by simpa using hnone)

/-- C10 witness: with the token disappearing on page 2, the call under
the default bound of 200 issues exactly 3 requests and returns the items
of pages 0, 1 and 2. -/
theorem api_call_bounded_and_terminates_witness :
    api_call
      (fun p : Nat =>
        YTResponse.mk [toString p]
          (if p = 2 then Option.none else some "tok")) 200 =
      (["0", "1", "2"], 3) := by
  have h := (api_call_bounded_and_terminates
    (fun p : Nat => YTResponse.mk [toString p]
      (if p = 2 then Option.none else some "tok")) 200).2.2.2
    2 (by omega) (by decide) (by simp)
  rw [h]
  rfl

/-- C1: on every non-200 response the fetch loop of get_activity_ids
re-issues the request for the same page (the page counter is incremented
only after a page is successfully received), and for the mocked response
sequence [200(a), 429, 200(b), 200(empty)] the requested pages are
[1, 2, 2, 3] and the result is the union of the stringified ids of both
200 pages — no record is lost. -/
theorem paginated_fetcher_retries_same_page (refresh : RefreshOutcome)
    (a b : List Nat) (ha : a ≠ []) (hb : b ≠ []) :
    (∀ (r : PageResponse) (rest : List PageResponse) (page : Nat)
        (acc : Finset String) (handled : Bool),
        r.status ≠ 200 →
        api_error_handler refresh r.status Option.none = .ok handled →
        get_activity_ids_loop refresh (r :: rest) page acc =
          (page :: (get_activity_ids_loop refresh rest page acc).1,
            (get_activity_ids_loop refresh rest page acc).2)) ∧
    get_activity_ids refresh
        [⟨200, a⟩, ⟨429, []⟩, ⟨200, b⟩, ⟨200, []⟩] =
      ([1, 2, 2, 3],
        .ok ((a.map toString).toFinset ∪ (b.map toString).toFinset)) := by
  constructor
  · intro r rest page acc handled hr hh
    simp [get_activity_ids_loop, hr, hh]
  · have ha2 : (List.isEmpty a) = false := by
      cases a with
      | nil => exact absurd rfl ha
      | cons x xs => rfl
    have hb2 : (List.isEmpty b) = false := by
      cases b with
      | nil => exact absurd rfl hb
      | cons x xs => rfl
    simp [get_activity_ids, get_activity_ids_loop, api_error_handler,
      ha2, hb2]

set_option maxRecDepth 10000 in
/-- C1 witness: the spec scenario with 50 ids on page 1 and 25 fresh ids
on page 2 around a 429: pages requested are [1, 2, 2, 3] and all 75
records are returned. -/
theorem paginated_fetcher_retries_same_page_witness :
    get_activity_ids (.success "tok")
        [⟨200, List.range 50⟩, ⟨429, []⟩,
          ⟨200, (List.range 25).map (fun n => 50 + n)⟩, ⟨200, []⟩] =
      ([1, 2, 2, 3],
        .ok (((List.range 50).map toString).toFinset ∪
          (((List.range 25).map (fun n => 50 + n)).map
            toString).toFinset)) ∧
    ((((List.range 50).map toString).toFinset ∪
      (((List.range 25).map (fun n => 50 + n)).map
        toString).toFinset)).card = 75 := by
  refine ⟨(paginated_fetcher_retries_same_page (.success "tok")
    (List.range 50) ((List.range 25).map (fun n => 50 + n))
    (by decide) (by decide)).2, ?_⟩
  decide

/-- C7: the validator derives the primary key as the pair (date, hour)
exactly when both columns are present and as the first column otherwise;
the sample size is min(10, row count); with at most 10 rows the full key
set is compared, otherwise the drawn sample of sample_size distinct keys
is; and a composite key matches a row only when every component column
agrees, so (date, hour) matching never matches on date alone. -/
theorem validator_primary_key_and_sampling :
    (∀ cols : List String, "date" ∈ cols → "hour" ∈ cols →
      primary_key cols = ["date", "hour"]) ∧
    (∀ (c : String) (cs : List String),
      ¬("date" ∈ c :: cs ∧ "hour" ∈ c :: cs) →
      primary_key (c :: cs) = [c]) ∧
    (∀ n, sample_size n = min 10 n) ∧
    (∀ (unique_keys random_sample : List String) (n : Nat), n ≤ 10 →
      sampled_or_all_keys unique_keys n random_sample = unique_keys) ∧
    (∀ (unique_keys random_sample : List String) (n : Nat), 10 < n →
      random_sample.length = sample_size n →
      (sampled_or_all_keys unique_keys n random_sample).length =
        min 10 n) ∧
    (∀ (unique_keys random_sample : List String) (n : Nat), n ≤ 10 →
      unique_keys.length = n →
      (sampled_or_all_keys unique_keys n random_sample).length =
        min 10 n) ∧
    (∀ (unique_keys random_sample : List String) (n : Nat),
      unique_keys.Nodup → random_sample.Nodup →
      (sampled_or_all_keys unique_keys n random_sample).Nodup) ∧
    (∀ key_row row : String → String,
      row_matches_key ["date", "hour"] key_row row = true ↔
        (row "date" = key_row "date" ∧ row "hour" = key_row "hour")) := by
  refine ⟨?_, ?_, ?_, ?_, ?_, ?_, ?_, ?_⟩
  · intro cols h1 h2
    simp [primary_key, h1, h2]
  · intro c cs h
    rw [primary_key, if_neg h]
    rfl
  · intro n
    rw [sample_size]
    split <;> omega
  · intro u s n h
    simp [sampled_or_all_keys, show ¬(10 < n) by omega]
  · intro u s n h hl
    simp only [sampled_or_all_keys, if_pos h]
    rw [hl, sample_size, if_neg (by omega)]
    omega
  · intro u s n h hl
    simp only [sampled_or_all_keys, if_neg (show ¬(10 < n) by omega)]
    omega
  · intro u s n hu hs
    rw [sampled_or_all_keys]
    split
    · exact hs
    · exact hu
  · intro key_row row
    simp [row_matches_key, and_assoc]

/-- C7 witness: concrete instances — the (date, hour, step_count) table
uses the composite key, a table without both columns uses its first
column, 2 rows compare in full, 12 rows compare a 10-key sample, and a
(date, hour) key row matches only when both components agree. -/
theorem validator_primary_key_and_sampling_witness :
    primary_key ["date", "hour", "step_count"] = ["date", "hour"] ∧
    primary_key ["id", "amount"] = ["id"] ∧
    sample_size 25 = min 10 25 ∧
    sampled_or_all_keys ["k1", "k2"] 2 [] = ["k1", "k2"] ∧
    (sampled_or_all_keys ["k1", "k2", "k3"] 12
      ["s1", "s2", "s3", "s4", "s5", "s6", "s7", "s8", "s9",
        "s10"]).length = min 10 12 ∧
    (sampled_or_all_keys ["k1", "k2"] 2 ["k1"]).length = min 10 2 ∧
    row_matches_key ["date", "hour"]
        (fun c => if c = "date" then "2024-01-01" else "07")
        (fun c => if c = "date" then "2024-01-01" else "07") = true := by
  refine ⟨validator_primary_key_and_sampling.1 _ (by decide) (by decide),
    validator_primary_key_and_sampling.2.1 _ _ (by decide),
    validator_primary_key_and_sampling.2.2.1 25,
    validator_primary_key_and_sampling.2.2.2.1 _ [] 2 (by omega),
    validator_primary_key_and_sampling.2.2.2.2.1 _ _ 12 (by omega)
      (by decide),
    validator_primary_key_and_sampling.2.2.2.2.2.1 _ ["k1"] 2 (by omega)
      (by decide),
    (validator_primary_key_and_sampling.2.2.2.2.2.2.2 _ _).mpr
      ⟨rfl, rfl⟩⟩

/-- C8: field comparison in the validator treats two missing values
(None or NaN) as equal; a staged float compared against a persisted
Decimal is first rewritten as the Decimal with the same decimal
representation, after which the comparison is exact Decimal equality;
every other pair must agree in both value and reported type; the key
loop records the first mismatching field of the table and stops (at most
one mismatch is ever recorded), and every recorded mismatch is a real
one — a field whose values compare equal is never reported. -/
theorem validator_field_comparison :
    (∀ pre db, isna pre = true → isna db = true →
      field_ok pre db = true) ∧
    (∀ m e m2 e2, field_ok (.float m e) (.decimal m2 e2) =
      py_eq (.decimal m e) (.decimal m2 e2)) ∧
    (∀ pre db, isna (normalise_pre pre db) = false →
      (field_ok pre db = true ↔
        py_eq (normalise_pre pre db) db = true ∧
        py_type (normalise_pre pre db) = py_type db)) ∧
    (∀ rows, (compare_random_rows rows).2.length ≤ 1) ∧
    (∀ key fields m, compare_fields key fields = some m →
      m.key = key ∧
      ∃ pre db, (m.field, pre, db) ∈ fields ∧
        field_ok pre db = false) := by
  refine ⟨?_, ?_, ?_, ?_, ?_⟩
  · intro pre db h1 h2
    cases pre <;> cases db <;> simp_all [isna, field_ok, normalise_pre]
  · intro m e m2 e2
    cases hpq : py_eq (.decimal m e) (.decimal m2 e2) <;>
      simp [field_ok, normalise_pre, isna, py_type, hpq]
  · intro pre db h
    by_cases hpt : py_type (normalise_pre pre db) = py_type db <;>
      cases hpq : py_eq (normalise_pre pre db) db <;>
      simp [field_ok, h, hpt, hpq]
  · intro rows
    induction rows with
    | nil => simp [compare_random_rows]
    | cons kf rest ih =>
      obtain ⟨k, fields⟩ := kf
      simp only [compare_random_rows]
      cases h : compare_fields k fields with
      | some m => simp
      | none => simpa using ih
  · intro key fields
    induction fields with
    | nil => intro m h; simp [compare_fields] at h
    | cons fpd rest ih =>
      obtain ⟨f, pre, db⟩ := fpd
      intro m h
      by_cases hok : field_ok pre db = true
      · obtain ⟨hk, pre2, db2, hmem, hbad⟩ :=
          ih m (by simpa [compare_fields, hok] using h)
        exact ⟨hk, pre2, db2, List.mem_cons_of_mem _ hmem, hbad⟩
      · have hm : m = ⟨key, f⟩ := by
          simp only [compare_fields, if_neg hok] at h
          exact (Option.some.injEq _ _ ▸ h).symm
        subst hm
        exact ⟨rfl, pre, db, List.mem_cons_self _ _,
          by simpa using hok⟩

/-- C8 witness: the staged row (id = 1, amount = 20.0 as a float)
against the persisted row (id = 1, amount = Decimal 20.01): exactly one
mismatch, for the field amount, is reported, the equal id field and the
later note field are not, and the missing-value and fail-fast parts of
the theorem hold at concrete inputs. -/
theorem validator_field_comparison_witness :
    field_ok .nan .pyNone = true ∧
    compare_random_rows
        [("1", [("id", .int 1, .int 1),
          ("amount", .float 200 1, .decimal 2001 2),
          ("note", .str "x", .str "y")])] =
      (false, [⟨"1", "amount"⟩]) ∧
    (compare_random_rows
        [("1", [("id", .int 1, .int 1),
          ("amount", .float 200 1, .decimal 2001 2),
          ("note", .str "x", .str "y")])]).2.length ≤ 1 := by
  refine ⟨validator_field_comparison.1 .nan .pyNone (by decide)
      (by decide),
    by decide,
    validator_field_comparison.2.2.2.1 _⟩

/-- C4 counterexample: upserting the single-row batch [(1, 10)] into an
empty table inserts it (added 1, updated 0); re-running the same batch
leaves the table identical but reports added 0 and updated 0, because
re-executing the upsert against an unchanged row affects 0 rows — not
updated = N = 1 as the claim states. -/
theorem upsert_second_run_counterexample :
    insert_data Prod.fst (fun _ => false) ([] : List (Nat × Nat))
        [(1, 10)] = ([(1, 10)], 1, 0) ∧
    insert_data Prod.fst (fun _ => false) [((1 : Nat), (10 : Nat))]
        [(1, 10)] = ([(1, 10)], 0, 0) ∧
    (insert_data Prod.fst (fun _ => false) [((1 : Nat), (10 : Nat))]
        [(1, 10)]).2.2 ≠ 1 := by
  decide

/-- C4 (amended): for a batch whose primary keys are pairwise distinct,
running insert_data twice with the same batch yields identical persisted
rows, and the second run reports added 0; under the MySQL affected-rows
contract an upsert whose values equal the stored row counts neither as
inserted nor as updated, so the second run reports updated 0 rather than
updated = N. The (added, updated) counts are returned for observability
on every run. -/
theorem upsert_idempotent_rows (pk : α → κ) (table batch : List α)
    (hnd : (batch.map pk).Nodup) :
    insert_data pk (fun _ => false)
        (insert_data pk (fun _ => false) table batch).1 batch =
      ((insert_data pk (fun _ => false) table batch).1, 0, 0) := by
  apply foldl_insert_step_fixed
  intro row hrow
  exact find_foldl_insert_step_mem pk row batch (table, 0, 0) hnd hrow

/-- C4 witness: the amended idempotence at a concrete two-row batch. -/
theorem upsert_idempotent_rows_witness :
    insert_data Prod.fst (fun _ => false)
        (insert_data Prod.fst (fun _ => false) ([] : List (Nat × Nat))
          [(1, 10), (2, 20)]).1 [(1, 10), (2, 20)] =
      ((insert_data Prod.fst (fun _ => false) ([] : List (Nat × Nat))
          [(1, 10), (2, 20)]).1, 0, 0) :=
  upsert_idempotent_rows Prod.fst [] [(1, 10), (2, 20)] (by decide)

end ETL
